import Mathlib

/-!
Shallow embedding of the request-dispatch and response-decoding core of the
traduora client library (src/endpoint.rs, src/error.rs, src/query.rs,
src/auth.rs, src/traduora.rs), together with the fragments of its external
collaborators (serde_json, the http status model, the url/http URI split)
that the pipeline's observable behaviour depends on.
-/

namespace Traduora

/-- JSON values, modelling `serde_json::Value`. Numbers are modelled as
integers, which covers every numeric payload appearing in the pipeline's
specification and tests; objects are modelled as association lists in
parse order (serde_json stores one value per key, so the lookups below
take the first binding, which agrees with serde_json on every object with
distinct keys). -/
inductive Json where
  | null
  | bool (b : Bool)
  | num (n : Int)
  | str (s : String)
  | arr (elems : List Json)
  | obj (fields : List (String × Json))

/-- Errors produced by serde_json parsing or typed deserialization
(`serde_json::Error`). The error text is not load-bearing for the
pipeline; the model keeps a single message-carrying constructor. -/
inductive JsonError where
  | parse (msg : String)
deriving DecidableEq

/-- Response body bytes (`bytes::Bytes`). All bodies handled by the claims
are ASCII, so bytes are modelled as characters. -/
abbrev Bytes := List Char

/-- First binding for a key in a JSON object's field list. Models map lookup
on a `serde_json::Map`, which holds at most one value per key. -/
def lookupField : List (String × Json) → String → Option Json
  | [], _ => none
  | (k, v) :: rest, key => if k = key then some v else lookupField rest key

/-- JSON Pointer token unescaping (`~1` to `/`, `~0` to `~`) over the
token's characters, as in `serde_json::Value::pointer`. -/
def unescapeChars : List Char → List Char
  | '~' :: '1' :: rest => '/' :: unescapeChars rest
  | '~' :: '0' :: rest => '~' :: unescapeChars rest
  | c :: rest => c :: unescapeChars rest
  | [] => []

/-- JSON Pointer token unescaping, on strings. -/
def unescapeToken (s : String) : String :=
  String.mk (unescapeChars s.toList)

/-- Splitting of the remainder of a JSON Pointer at every `/`. -/
def splitTokens (acc : List Char) : List Char → List String
  | [] => [String.mk acc.reverse]
  | c :: rest =>
    if c = '/' then String.mk acc.reverse :: splitTokens [] rest
    else splitTokens (c :: acc) rest

/-- Decimal parse of an array-index token (digits only). -/
def tokenToNat : List Char → Option Nat
  | [] => none
  | ds => if ds.all Char.isDigit then some (ds.foldl (fun n c => n * 10 + (c.toNat - '0'.toNat)) 0) else none

/-- One step of JSON Pointer resolution: object member lookup or array
indexing, as in `serde_json::Value::pointer`. -/
def pointerStep (j : Json) (token : String) : Option Json :=
  match j with
  | .obj fields => lookupField fields token
  | .arr elems =>
    match tokenToNat token.toList with
    | some i => elems.get? i
    | none => none
  | _ => none

/-- Model of `serde_json::Value::pointer` (used by `ApiError::from_traduora`
with the pointers "/message" and "/error"): empty pointer is the value
itself, a pointer not starting with `/` resolves to nothing, otherwise the
`/`-separated tokens are unescaped and resolved in turn. -/
def Json.pointer (j : Json) (p : String) : Option Json :=
  match p.toList with
  | [] => some j
  | '/' :: rest => ((splitTokens [] rest).map unescapeToken).foldlM pointerStep j
  | _ => none

/-- Model of `serde_json::Value::as_str`: the contained string if the value
is a JSON string, `none` otherwise. -/
def Json.as_str : Json → Option String
  | .str s => some s
  | _ => none

/-- Leading JSON whitespace removal (space, tab, newline, carriage return). -/
def skipWs : List Char → List Char
  | [] => []
  | c :: rest =>
    if c = ' ' || c = '\t' || c = '\n' || c = '\r' then skipWs rest else c :: rest

/-- Body of a JSON string literal after the opening quote, supporting the
escapes appearing in pipeline inputs. Returns the string and the remaining
input after the closing quote. -/
def parseStringBody (acc : List Char) : List Char → Option (String × List Char)
  | [] => none
  | c :: rest =>
    if c = '"' then
      some (String.mk acc.reverse, rest)
    else if c = '\\' then
      match rest with
      | [] => none
      | e :: rest2 =>
        if e = '"' then parseStringBody ('"' :: acc) rest2
        else if e = '\\' then parseStringBody ('\\' :: acc) rest2
        else if e = '/' then parseStringBody ('/' :: acc) rest2
        else if e = 'n' then parseStringBody ('\n' :: acc) rest2
        else if e = 't' then parseStringBody ('\t' :: acc) rest2
        else if e = 'r' then parseStringBody ('\r' :: acc) rest2
        else none
    else
      parseStringBody (c :: acc) rest

/-- Longest leading run of decimal digits. -/
def spanDigits : List Char → List Char × List Char
  | [] => ([], [])
  | c :: rest =>
    if c.isDigit then
      let (ds, r) := spanDigits rest
      (c :: ds, r)
    else
      ([], c :: rest)

/-- Digit list to natural number. -/
def digitsToNat : List Char → Nat
  | ds => ds.foldl (fun n c => n * 10 + (c.toNat - '0'.toNat)) 0

/-- JSON integer literal (optional minus sign, digits, no redundant leading
zero), modelling the integer case of serde_json number parsing. -/
def parseNumber (input : List Char) : Option (Json × List Char) :=
  match input with
  | '-' :: rest =>
    match spanDigits rest with
    | ([], _) => none
    | (ds, r) =>
      if ds.length > 1 && ds.head? = some '0' then none
      else some (.num (-(digitsToNat ds : Int)), r)
  | _ =>
    match spanDigits input with
    | ([], _) => none
    | (ds, r) =>
      if ds.length > 1 && ds.head? = some '0' then none
      else some (.num (digitsToNat ds : Int), r)

mutual

/-- Recursive-descent JSON value parser with explicit fuel, modelling
`serde_json` value parsing on the integer/string/array/object fragment.
Returns the parsed value and the unconsumed input. -/
def parseVal : Nat → List Char → Option (Json × List Char)
  | 0, _ => none
  | fuel + 1, input =>
    match skipWs input with
    | [] => none
    | c :: rest =>
      if c = '\x7b' then
        match skipWs rest with
        | '\x7d' :: rest2 => some (.obj [], rest2)
        | _ => parseMembers fuel [] rest
      else if c = '[' then
        match skipWs rest with
        | ']' :: rest2 => some (.arr [], rest2)
        | _ => parseElems fuel [] rest
      else if c = '"' then
        match parseStringBody [] rest with
        | some (s, rest2) => some (.str s, rest2)
        | none => none
      else if c = 'n' then
        match rest with
        | 'u' :: 'l' :: 'l' :: rest2 => some (.null, rest2)
        | _ => none
      else if c = 't' then
        match rest with
        | 'r' :: 'u' :: 'e' :: rest2 => some (.bool true, rest2)
        | _ => none
      else if c = 'f' then
        match rest with
        | 'a' :: 'l' :: 's' :: 'e' :: rest2 => some (.bool false, rest2)
        | _ => none
      else
        parseNumber (c :: rest)

/-- Object member list parser (after the opening brace, at least one member). -/
def parseMembers : Nat → List (String × Json) → List Char → Option (Json × List Char)
  | 0, _, _ => none
  | fuel + 1, acc, input =>
    match skipWs input with
    | '"' :: rest =>
      match parseStringBody [] rest with
      | none => none
      | some (key, rest2) =>
        match skipWs rest2 with
        | ':' :: rest3 =>
          match parseVal fuel rest3 with
          | none => none
          | some (v, rest4) =>
            match skipWs rest4 with
            | ',' :: rest5 => parseMembers fuel (acc ++ [(key, v)]) rest5
            | '\x7d' :: rest5 => some (.obj (acc ++ [(key, v)]), rest5)
            | _ => none
        | _ => none
    | _ => none

/-- Array element list parser (after the opening bracket, at least one element). -/
def parseElems : Nat → List Json → List Char → Option (Json × List Char)
  | 0, _, _ => none
  | fuel + 1, acc, input =>
    match parseVal fuel input with
    | none => none
    | some (v, rest) =>
      match skipWs rest with
      | ',' :: rest2 => parseElems fuel (acc ++ [v]) rest2
      | ']' :: rest2 => some (.arr (acc ++ [v]), rest2)
      | _ => none

end

/-- Model of `serde_json::from_slice::<Value>`: parse the whole input as one
JSON value; anything but trailing whitespace after it is an error. -/
def from_slice (body : Bytes) : Except JsonError Json :=
  match parseVal (body.length + 1) body with
  | some (v, rest) =>
    if (skipWs rest).isEmpty then .ok v else .error (.parse "trailing characters")
  | none => .error (.parse "invalid JSON")

/-- A raw HTTP response as handed to the decoding pipeline
(`http::Response<Bytes>`): status code and body bytes. Headers are never
inspected by the pipeline and are omitted. -/
structure Response where
  status : Nat
  body : Bytes

/-- Model of `http::StatusCode::is_success`: the 2xx class. -/
def is_success (status : Nat) : Bool :=
  200 ≤ status && status < 300

/-- The error taxonomy of src/error.rs (`ApiError<E>`), with `E` the
client-defined transport error type. `DataType` carries the name of the
type that failed to deserialize (`any::type_name::<T>()` is modelled as an
explicit string). `UrlParse` and `Body` sources are carried as messages. -/
inductive ApiError (E : Type) where
  | client (source : E)
  | urlParse (source : String)
  | body (source : String)
  | json (source : JsonError)
  | traduora (msg : String)
  | traduoraService (status : Nat) (data : Bytes)
  | traduoraObject (obj : Json)
  | traduoraUnrecognized (obj : Json)
  | dataType (source : JsonError) (typename : String)

/-- Model of `ApiError::server_error` (error.rs:98-103): the
`TraduoraService` variant carrying the status code and a copy of the raw
body bytes. -/
def ApiError.server_error {E : Type} (status : Nat) (body : Bytes) : ApiError E :=
  .traduoraService status body

/-- Model of `ApiError::from_traduora` (error.rs:105-119): look up
`/message`, falling back to `/error`; a string result becomes `Traduora`,
a non-string result becomes `TraduoraObject` with that inner value, and a
missing key becomes `TraduoraUnrecognized` with the whole value. -/
def ApiError.from_traduora {E : Type} (value : Json) : ApiError E :=
  match (value.pointer "/message").orElse (fun _ => value.pointer "/error") with
  | some error_value =>
    match error_value.as_str with
    | some msg => .traduora msg
    | none => .traduoraObject error_value
  | none => .traduoraUnrecognized value

/-- Model of `ApiError::data_type::<T>` (error.rs:121-126), with the type
name passed explicitly. -/
def ApiError.data_type {E : Type} (source : JsonError) (typename : String) : ApiError E :=
  .dataType source typename

/-- Model of `process_response` (endpoint.rs:63-81). An empty body is
replaced by the bytes `null` before parsing; the status class then picks
the branch: on success the parsed JSON is fed to the endpoint's mapping
function (`Json` error on parse failure, `DataType` error on mapping
failure), on non-success an unparsable body becomes `server_error` and a
parsed body is classified by `from_traduora`. The mapper stands for the
Rust closure of type `FnOnce(Value) -> Result<T, serde_json::Error>` and
`typename` for `any::type_name::<T>()`. -/
def process_response {E T : Type} (r : Response)
    (mapper : Json → Except JsonError T) (typename : String) :
    Except (ApiError E) T :=
  let fill : Bytes := "null".toList
  let body := if r.body.isEmpty then fill else r.body
  let result_v := from_slice body
  if is_success r.status then
    match result_v with
    | .error e => .error (.json e)
    | .ok v =>
      match mapper v with
      | .ok t => .ok t
      | .error e => .error (ApiError.data_type e typename)
  else
    match result_v with
    | .error _ => .error (ApiError.server_error r.status r.body)
    | .ok v => .error (ApiError.from_traduora v)

/-- Model of the default `DefaultModel::map` (query.rs:21-27), i.e.
`serde_json::from_value::<Container<T>>(data).map(|h| h.data)` where
`Container<T>` is the derived struct with the single field `data`: the
value must be a JSON object, the `data` field is deserialized with `T`'s
deserializer `de`, other fields are ignored (serde's default), and a
missing `data` field is an error. A serde_json object holds at most one
value per key, so the lookup takes the first binding. -/
def DefaultModel.map {T : Type} (de : Json → Except JsonError T) (data : Json) :
    Except JsonError T :=
  match data with
  | .obj fields =>
    match lookupField fields "data" with
    | some inner => de inner
    | none => .error (.parse "missing field data")
  | _ => .error (.parse "invalid type: expected struct Container")

/-- The response-decoding stage of `query_custom` / `query_custom_async`
(endpoint.rs:44 and endpoint.rs:59): `process_response` with plain
`serde_json::from_value::<T>` — i.e. the caller-chosen type's own
deserializer `de` — as the mapping function. -/
def query_custom_decode {E T : Type} (de : Json → Except JsonError T)
    (typename : String) (r : Response) : Except (ApiError E) T :=
  process_response r de typename

/-- The response-decoding stage of the default-model query (query.rs:45 and
query.rs:59): `process_response` with the endpoint's `E::map`; for an
endpoint that keeps the default implementation this is `DefaultModel.map`
applied to the model type's deserializer. -/
def default_query_decode {E T : Type} (de : Json → Except JsonError T)
    (typename : String) (r : Response) : Except (ApiError E) T :=
  process_response r (DefaultModel.map de) typename

/-- Deserializer for a Rust `i64` target (`serde_json::from_value::<i64>`):
accepts exactly a JSON integer. Used to instantiate witnesses. -/
def i64_from_value : Json → Except JsonError Int
  | .num n => .ok n
  | _ => .error (.parse "invalid type: expected i64")

/-- Serializer for a Rust `i64` (`serde_json::to_value`): an integer value. -/
def i64_to_value (n : Int) : Json :=
  .num n

/-- The scope marker types of src/auth.rs: `Unauthenticated` and
`Authenticated`. -/
inductive ScopeTy where
  | unauthenticated
  | authenticated
deriving DecidableEq

/-- Whether the Rust trait instance `target: From<source>` exists between
the scope marker types: the standard library's reflexive blanket impl plus
the single conversion `impl From<Authenticated> for Unauthenticated`
(auth.rs:68-77). No impl converts `Unauthenticated` into `Authenticated`. -/
def scope_from_impl (target source : ScopeTy) : Bool :=
  target == source || (target == .unauthenticated && source == .authenticated)

/-- The associated type `AccessLevel` of `impl<A: Scope> RestClient for
Traduora<A>` (traduora.rs:265-267): `type AccessLevel = A`. -/
def traduoraAccessLevel (a : ScopeTy) : ScopeTy :=
  a

/-- The associated type `AccessLevel` of `impl<A: Scope> RestClient for
AsyncTraduora<A>` (traduora.rs:322-332): `type AccessLevel =
Authenticated`, written in the source independently of the scope
parameter `A`. -/
def asyncTraduoraAccessLevel (_ : ScopeTy) : ScopeTy :=
  .authenticated

/-- The trait bound gating all query dispatch, `E::AccessControl:
From<C::AccessLevel>` (query.rs:104-113 and 116-127, endpoint.rs:34-61,
query.rs:36-61): the generic `Query`/`AsyncQuery`/`CustomQuery` impls — and
hence the call sites — exist exactly when this is satisfied. -/
def queryDispatchDefined (endpointAccessControl clientAccessLevel : ScopeTy) : Bool :=
  scope_from_impl endpointAccessControl clientAccessLevel

/-- Modelled from the external `url` crate (WHATWG URL standard): code
points forbidden in a special-scheme URL's domain host. The braces
`\x7b` and `\x7d` are not forbidden. -/
def urlForbiddenHostChar (c : Char) : Bool :=
  c.val < 0x20 || c = ' ' || c = '#' || c = '%' || c = '/' || c = ':' ||
  c = '<' || c = '>' || c = '?' || c = '@' || c = '[' || c = '\\' || c = ']' ||
  c = '^' || c.val = 0x7f

/-- Modelled from the external `url` crate, restricted to printable ASCII
hosts that IDNA processing leaves unchanged (no uppercase letters):
`Url::parse` accepts `https://{host}/api/v1/` — the base URL built at
client construction (traduora.rs:710-712) — exactly when the host is
non-empty and contains no forbidden host code point. -/
def urlHostAccepted (host : String) : Bool :=
  !host.toList.isEmpty && host.toList.all fun c =>
    0x21 ≤ c.val && c.val ≤ 0x7e && !c.isUpper && !(urlForbiddenHostChar c)

/-- Model of `Builder::build_rest_url` (traduora.rs:710-712) for the
default HTTPS protocol: the string `https://{host}/api/v1/`. -/
def build_rest_url (host : String) : String :=
  "https://" ++ host ++ "/api/v1/"

/-- Model of `Traduora::rest_endpoint` (traduora.rs:269-272), i.e.
`rest_url.join(endpoint)`, restricted to endpoint paths that are plain
relative segments (no `/`, `?`, `#`, `:`, `\\` and no characters the WHATWG
path encoder rewrites), for which the join appends the segment to the base
path and cannot fail. -/
def rest_endpoint (host path : String) : String :=
  build_rest_url host ++ path

/-- Modelled from the external `http` crate: bytes admitted in the
authority component of an `http::Uri` (RFC 3986 unreserved and sub-delims
characters, the authority delimiters `:`, `@`, `[`, `]`, and percent).
`\x7b` is not admitted. -/
def uriAuthorityChar (c : Char) : Bool :=
  c.isAlphanum || c = '-' || c = '.' || c = '_' || c = '~' || c = '!' ||
  c = '$' || c = '&' || c = Char.ofNat 39 || c = '(' || c = ')' || c = '*' ||
  c = '+' || c = ',' || c = ';' || c = '=' || c = ':' || c = '@' ||
  c = '[' || c = ']' || c = '%'

/-- Modelled from the external `http` crate: bytes admitted in a query- and
fragment-free path component (visible ASCII other than the `?` and `#`
delimiters). -/
def uriPathChar (c : Char) : Bool :=
  0x21 ≤ c.val && c.val ≤ 0x7e && c ≠ '#' && c ≠ '?'

/-- Modelled from the external `http` crate: whether
`s.parse::<http::Uri>()` succeeds for an absolute `https` URL with a
query- and fragment-free path: the authority (up to the first slash) and
the path must consist of admitted bytes. -/
def http_uri_parse_ok (s : String) : Bool :=
  match s.toList with
  | 'h' :: 't' :: 't' :: 'p' :: 's' :: ':' :: '/' :: '/' :: rest =>
    let auth := rest.takeWhile (fun c => c ≠ '/')
    let path := rest.drop auth.length
    !auth.isEmpty && auth.all uriAuthorityChar && path.all uriPathChar
  | _ => false

/-- The possible outcomes of `build_request_with_body` (endpoint.rs:83-103),
with the untracked one made explicit: the `.expect` at endpoint.rs:95
aborts the process when the joined `url::Url` cannot be re-parsed as an
`http::Uri`. -/
inductive BuildOutcome (E : Type) where
  | built (uri : String) (contentType : Option String) (body : Bytes)
  | failed (e : ApiError E)
  | aborted (msg : String)

/-- Model of `build_request_with_body` (endpoint.rs:83-103) against a
`Traduora` client with the given host: resolve the endpoint URL via
`rest_endpoint`, convert it to an `http::Uri` — the `.expect` on that
conversion aborts instead of returning an error — then attach the
endpoint's body, whose construction may fail with a `Body` error
(`endpoint.body()?`). `bodyRes` stands for the result of
`endpoint.body()`. For the plain relative segments modelled here the URL
join itself cannot fail, so the `UrlParse` arm does not arise. -/
def build_request_with_body {E : Type} (host path : String)
    (bodyRes : Except String (Option (String × Bytes))) : BuildOutcome E :=
  let url := rest_endpoint host path
  if http_uri_parse_ok url then
    match bodyRes with
    | .error e => .failed (.body e)
    | .ok (some (mime, b)) => .built url (some mime) b
    | .ok none => .built url none []
  else
    .aborted "failed to parse a url::Url as an http::Uri"

/-- Helper: resolving the pointer "/message" is a single member lookup. -/
theorem pointer_message (j : Json) :
    Json.pointer j "/message" = pointerStep j "message" := by
  show (pointerStep j "message").bind (fun s => List.foldlM pointerStep s []) =
    pointerStep j "message"
  cases pointerStep j "message" <;> rfl

/-- Helper: resolving the pointer "/error" is a single member lookup. -/
theorem pointer_error (j : Json) :
    Json.pointer j "/error" = pointerStep j "error" := by
  show (pointerStep j "error").bind (fun s => List.foldlM pointerStep s []) =
    pointerStep j "error"
  cases pointerStep j "error" <;> rfl

/-- Helper: from_traduora on an object, message key found. -/
theorem from_traduora_found {E : Type} (fields : List (String × Json)) (mv : Json)
    (hm : lookupField fields "message" = some mv ∨
      (lookupField fields "message" = none ∧ lookupField fields "error" = some mv)) :
    ApiError.from_traduora (E := E) (.obj fields) =
      (match mv.as_str with
        | some msg => .traduora msg
        | none => .traduoraObject mv) := by
  unfold ApiError.from_traduora
  rw [pointer_message, pointer_error]
  rcases hm with hm | ⟨h1, h2⟩
  · show (match ((lookupField fields "message").orElse
      (fun _ => lookupField fields "error")) with
        | some ev => match ev.as_str with
          | some msg => ApiError.traduora msg
          | none => ApiError.traduoraObject ev
        | none => ApiError.traduoraUnrecognized (Json.obj fields)) = _
    rw [hm]
    rfl
  · show (match ((lookupField fields "message").orElse
      (fun _ => lookupField fields "error")) with
        | some ev => match ev.as_str with
          | some msg => ApiError.traduora msg
          | none => ApiError.traduoraObject ev
        | none => ApiError.traduoraUnrecognized (Json.obj fields)) = _
    rw [h1, h2]
    rfl

/-- Helper: on a non-success status, `process_response` classifies the
(fill-adjusted) parse result: parse failure becomes `server_error`, a
parsed value goes through `from_traduora`. -/
theorem process_response_error_branch {E T : Type} (r : Response)
    (mapper : Json → Except JsonError T) (typename : String)
    (hs : is_success r.status = false) :
    process_response (E := E) r mapper typename =
      (match from_slice (if r.body.isEmpty then "null".toList else r.body) with
        | .error _ => .error (ApiError.server_error r.status r.body)
        | .ok v => .error (ApiError.from_traduora v)) := by
  unfold process_response
  rw [hs]
  rfl

/-- C1 amended: for every non-success response with an empty body the
pipeline substitutes the bytes `null` before branching, so the body parses
as JSON null and the classified error is `TraduoraUnrecognized` carrying
JSON null — not `TraduoraService`. -/
theorem c1_empty_error_body_unrecognized {E T : Type}
    (mapper : Json → Except JsonError T) (typename : String) (status : Nat)
    (hs : is_success status = false) :
    process_response (E := E) ⟨status, []⟩ mapper typename =
      .error (.traduoraUnrecognized .null) := by
  rw [process_response_error_branch ⟨status, []⟩ mapper typename hs]
  rfl

/-- C1 witness: at status 500 the amended statement evaluates as claimed. -/
theorem c1_empty_error_body_unrecognized_witness :
    is_success 500 = false ∧
    process_response (E := Unit) ⟨500, []⟩ i64_from_value "i64" =
      .error (.traduoraUnrecognized .null) :=
  ⟨rfl, c1_empty_error_body_unrecognized i64_from_value "i64" 500 rfl⟩

/-- C1 counterexample: for the non-success status 500 with an empty body the
pipeline does not return the `TraduoraService` variant carrying the status
and the raw empty body. -/
theorem c1_counterexample :
    process_response (E := Unit) ⟨500, []⟩ i64_from_value "i64" ≠
      .error (ApiError.server_error 500 []) :=
  fun h => nomatch h

/-- C2 amended: the custom-model query applies the caller-chosen type's own
deserializer directly to the entire response JSON value, with no envelope
unwrapping. -/
theorem c2_custom_query_no_envelope {E T : Type}
    (de : Json → Except JsonError T) (tn : String) (r : Response) (v : Json)
    (hs : is_success r.status = true) (hb : r.body.isEmpty = false)
    (hp : from_slice r.body = .ok v) :
    query_custom_decode (E := E) de tn r =
      (match de v with
        | .ok t => .ok t
        | .error e => .error (.dataType e tn)) := by
  unfold query_custom_decode process_response
  rw [hs, hb]
  show (match from_slice r.body with
    | .error e => Except.error (ApiError.json e)
    | .ok v => match de v with
      | .ok t => Except.ok t
      | .error e => Except.error (ApiError.data_type e tn)) = _
  rw [hp]
  rfl

/-- C2 witness: the amended statement at a concrete enveloped body. -/
theorem c2_custom_query_no_envelope_witness :
    is_success 200 = true ∧
    ("\x7b\"data\": 5\x7d".toList : Bytes).isEmpty = false ∧
    from_slice "\x7b\"data\": 5\x7d".toList = .ok (.obj [("data", .num 5)]) ∧
    query_custom_decode (E := Unit) i64_from_value "i64" ⟨200, "\x7b\"data\": 5\x7d".toList⟩ =
      .error (.dataType (.parse "invalid type: expected i64") "i64") :=
  ⟨rfl, rfl, rfl,
    c2_custom_query_no_envelope i64_from_value "i64" ⟨200, "\x7b\"data\": 5\x7d".toList⟩
      (.obj [("data", .num 5)]) rfl rfl rfl⟩

/-- C2 counterexample: for the success response whose body is the envelope
object with inner value 5, decoding the caller-chosen type i64 through the
custom query does not yield the inner value, while the default-model query
does — the custom path does not unwrap the envelope. -/
theorem c2_counterexample :
    query_custom_decode (E := Unit) i64_from_value "i64"
        ⟨200, "\x7b\"data\": 5\x7d".toList⟩ ≠ .ok 5 ∧
    default_query_decode (E := Unit) i64_from_value "i64"
        ⟨200, "\x7b\"data\": 5\x7d".toList⟩ = .ok 5 :=
  ⟨(fun h => nomatch h), rfl⟩

/-- C3: the compile-time scope gate. Through the blocking client the
dispatch bound `E::AccessControl: From<C::AccessLevel>` is unsatisfiable
for an Authenticated-only endpoint on an Unauthenticated client, but
through the asynchronous client it is satisfied — `AsyncTraduora`'s
`RestClient` impl fixes `type AccessLevel = Authenticated` regardless of
the client's actual scope, so the call compiles. -/
theorem c3_async_scope_gate_broken :
    queryDispatchDefined .authenticated (traduoraAccessLevel .unauthenticated) = false ∧
    queryDispatchDefined .authenticated (asyncTraduoraAccessLevel .unauthenticated) = true :=
  ⟨rfl, rfl⟩

/-- C4: the success/failure branch of the decoding pipeline is decided only
by the HTTP status class — a result can be `Ok` only when the status is
2xx, equivalently every non-2xx response yields an `Err` whatever the body
is; the pipeline is a total function, so it never panics. -/
theorem c4_status_class_branch {E T : Type} (r : Response)
    (mapper : Json → Except JsonError T) (typename : String)
    (h : (process_response (E := E) r mapper typename).isOk = true) :
    is_success r.status = true := by
  by_cases hs : is_success r.status = true
  · exact hs
  · rw [process_response_error_branch r mapper typename (Bool.not_eq_true _ ▸ hs)] at h
    cases hfs : from_slice (if r.body.isEmpty then "null".toList else r.body) <;>
      rw [hfs] at h <;> nomatch h

/-- C4 witness: a 2xx response that decodes, with the implied status fact. -/
theorem c4_status_class_branch_witness :
    (process_response (E := Unit) ⟨200, "\x7b\"data\": 5\x7d".toList⟩
      (DefaultModel.map i64_from_value) "i64").isOk = true ∧
    is_success 200 = true :=
  ⟨rfl, c4_status_class_branch (E := Unit) ⟨200, "\x7b\"data\": 5\x7d".toList⟩
    (DefaultModel.map i64_from_value) "i64" rfl⟩

/-- C5: envelope round-trip — for any model type with serializer `ser` and
deserializer `de` satisfying the serde round-trip contract, wrapping a
serialized value in the envelope object and applying the default mapping
function yields the value back. -/
theorem c5_envelope_round_trip {T : Type} (de : Json → Except JsonError T)
    (ser : T → Json) (v : T) (h : de (ser v) = .ok v) :
    DefaultModel.map de (.obj [("data", ser v)]) = .ok v := by
  unfold DefaultModel.map
  show de (ser v) = .ok v
  exact h

/-- C5 witness: the round trip at the i64 value 7. -/
theorem c5_envelope_round_trip_witness :
    i64_from_value (i64_to_value 7) = .ok 7 ∧
    DefaultModel.map i64_from_value (.obj [("data", i64_to_value 7)]) = .ok 7 :=
  ⟨rfl, c5_envelope_round_trip i64_from_value i64_to_value 7 rfl⟩

/-- C6: non-success error-message extraction — when the parsed body is an
object whose `message` key holds a string (whatever the `error` key
holds), or has no `message` key but an `error` key holding a string, the
classified error is `Traduora` with that string; `message` is looked up
before `error`. -/
theorem c6_message_precedence {E T : Type} (mapper : Json → Except JsonError T)
    (tn : String) (st : Nat) (body : Bytes) (fields : List (String × Json)) (m : String)
    (hs : is_success st = false) (hb : body.isEmpty = false)
    (hp : from_slice body = .ok (.obj fields))
    (hm : lookupField fields "message" = some (.str m) ∨
      (lookupField fields "message" = none ∧ lookupField fields "error" = some (.str m))) :
    process_response (E := E) ⟨st, body⟩ mapper tn = .error (.traduora m) := by
  rw [process_response_error_branch ⟨st, body⟩ mapper tn hs]
  show (match from_slice (if body.isEmpty then "null".toList else body) with
    | .error _ => Except.error (ApiError.server_error st body)
    | .ok v => Except.error (ApiError.from_traduora v)) = _
  rw [hb]
  show (match from_slice body with
    | .error _ => Except.error (ApiError.server_error st body)
    | .ok v => Except.error (ApiError.from_traduora v)) = _
  rw [hp]
  show Except.error (ApiError.from_traduora (.obj fields)) = _
  rw [from_traduora_found fields (.str m) hm]
  rfl

/-- C6 witness: both keys present as strings — `message` wins. -/
theorem c6_message_precedence_witness :
    is_success 400 = false ∧
    from_slice "\x7b\"message\": \"m1\", \"error\": \"m2\"\x7d".toList =
      .ok (.obj [("message", .str "m1"), ("error", .str "m2")]) ∧
    process_response (E := Unit) ⟨400, "\x7b\"message\": \"m1\", \"error\": \"m2\"\x7d".toList⟩
      i64_from_value "i64" = .error (.traduora "m1") :=
  ⟨rfl, rfl,
    c6_message_precedence i64_from_value "i64" 400
      "\x7b\"message\": \"m1\", \"error\": \"m2\"\x7d".toList
      [("message", .str "m1"), ("error", .str "m2")] "m1" rfl rfl rfl (Or.inl rfl)⟩

/-- C7: a non-success response with a non-empty body that is not valid JSON
is classified as `TraduoraService` carrying the status code and the raw
body bytes. -/
theorem c7_unparsable_error_body {E T : Type} (mapper : Json → Except JsonError T)
    (tn : String) (st : Nat) (body : Bytes) (e : JsonError)
    (hs : is_success st = false) (hb : body.isEmpty = false)
    (hp : from_slice body = .error e) :
    process_response (E := E) ⟨st, body⟩ mapper tn =
      .error (.traduoraService st body) := by
  rw [process_response_error_branch ⟨st, body⟩ mapper tn hs]
  show (match from_slice (if body.isEmpty then "null".toList else body) with
    | .error _ => Except.error (ApiError.server_error st body)
    | .ok v => Except.error (ApiError.from_traduora v)) = _
  rw [hb]
  show (match from_slice body with
    | .error _ => Except.error (ApiError.server_error st body)
    | .ok v => Except.error (ApiError.from_traduora v)) = _
  rw [hp]
  rfl

/-- C7 witness: the body `not json` on status 500. -/
theorem c7_unparsable_error_body_witness :
    is_success 500 = false ∧
    from_slice "not json".toList = .error (.parse "invalid JSON") ∧
    process_response (E := Unit) ⟨500, "not json".toList⟩ i64_from_value "i64" =
      .error (.traduoraService 500 "not json".toList) :=
  ⟨rfl, rfl,
    c7_unparsable_error_body i64_from_value "i64" 500 "not json".toList
      (.parse "invalid JSON") rfl rfl rfl⟩

/-- C8: a success response with an empty body is decoded as JSON null — the
mapping function is applied to null, and a mapping failure surfaces as the
`DataType` error carrying the target type's name, not a panic. -/
theorem c8_empty_success_null {E T : Type} (mapper : Json → Except JsonError T)
    (tn : String) (st : Nat) (hs : is_success st = true) :
    process_response (E := E) ⟨st, []⟩ mapper tn =
      (match mapper .null with
        | .ok t => .ok t
        | .error e => .error (.dataType e tn)) := by
  unfold process_response
  rw [hs]
  show (match mapper .null with
    | .ok t => Except.ok t
    | .error e => Except.error (ApiError.data_type e tn)) = _
  rfl

/-- C8 witness: status 200, empty body, i64 target — null does not decode
to i64, so the result is the DataType error. -/
theorem c8_empty_success_null_witness :
    is_success 200 = true ∧
    process_response (E := Unit) ⟨200, []⟩ i64_from_value "i64" =
      .error (.dataType (.parse "invalid type: expected i64") "i64") :=
  ⟨rfl, c8_empty_success_null i64_from_value "i64" 200 rfl⟩

/-- C9: the claimed totality of the request-building step fails — the host
`a\x7bb` is accepted at client construction (it is a WHATWG-valid domain),
yet building a request for any endpoint path aborts at the
`.expect` converting the joined `url::Url` to an `http::Uri`, because
`\x7b` is not a valid RFC 3986 authority byte. -/
theorem c9_uri_conversion_abort :
    urlHostAccepted "a\x7bb" = true ∧
    build_request_with_body (E := Unit) "a\x7bb" "projects" (.ok none) =
      .aborted "failed to parse a url::Url as an http::Uri" :=
  ⟨rfl, rfl⟩

/-- C10: when the looked-up error value (`message`, falling back to `error`
only if `message` is absent) is not a string, the classified error is
`TraduoraObject` carrying exactly that inner value. -/
theorem c10_nonstring_error_value {E T : Type} (mapper : Json → Except JsonError T)
    (tn : String) (st : Nat) (body : Bytes) (fields : List (String × Json)) (mv : Json)
    (hs : is_success st = false) (hb : body.isEmpty = false)
    (hp : from_slice body = .ok (.obj fields))
    (hm : lookupField fields "message" = some mv ∨
      (lookupField fields "message" = none ∧ lookupField fields "error" = some mv))
    (hns : mv.as_str = none) :
    process_response (E := E) ⟨st, body⟩ mapper tn = .error (.traduoraObject mv) := by
  rw [process_response_error_branch ⟨st, body⟩ mapper tn hs]
  show (match from_slice (if body.isEmpty then "null".toList else body) with
    | .error _ => Except.error (ApiError.server_error st body)
    | .ok v => Except.error (ApiError.from_traduora v)) = _
  rw [hb]
  show (match from_slice body with
    | .error _ => Except.error (ApiError.server_error st body)
    | .ok v => Except.error (ApiError.from_traduora v)) = _
  rw [hp]
  show Except.error (ApiError.from_traduora (.obj fields)) = _
  rw [from_traduora_found fields mv hm]
  rw [hns]

/-- C10 witness: `message` holds an object while `error` holds a string —
the result carries the inner object from `message`, which is not bypassed
in favour of `error`. -/
theorem c10_nonstring_error_value_witness :
    is_success 422 = false ∧
    from_slice "\x7b\"message\": \x7b\"code\": 1\x7d, \"error\": \"m2\"\x7d".toList =
      .ok (.obj [("message", .obj [("code", .num 1)]), ("error", .str "m2")]) ∧
    (Json.obj [("code", .num 1)]).as_str = none ∧
    process_response (E := Unit)
      ⟨422, "\x7b\"message\": \x7b\"code\": 1\x7d, \"error\": \"m2\"\x7d".toList⟩
      i64_from_value "i64" = .error (.traduoraObject (.obj [("code", .num 1)])) :=
  ⟨rfl, rfl, rfl,
    c10_nonstring_error_value i64_from_value "i64" 422
      "\x7b\"message\": \x7b\"code\": 1\x7d, \"error\": \"m2\"\x7d".toList
      [("message", .obj [("code", .num 1)]), ("error", .str "m2")]
      (.obj [("code", .num 1)]) rfl rfl rfl (Or.inl rfl) rfl⟩

end Traduora
